import Mathlib

/-!
Verification of the Highway Notes front-end (validation utilities, API client
response interceptor, sign-in / sign-up OTP flow, and the notes dashboard).

Strings from the JavaScript source are modelled as Lean `String`s; regular
expressions are translated character-class by character-class into decidable
predicates over `List Char`.  Timestamps (`Date.getTime()`) are modelled as
integers in milliseconds.  Network calls are modelled by passing the server's
eventual reply as an explicit argument to each handler and reporting in the
result whether the call was issued at all.
-/

namespace Highway

/-! ### JavaScript character classes

These follow the ECMAScript definitions used by the regular expressions in
src/utils/validation.ts: ASCII letter ranges, the digit class, the WhiteSpace
plus LineTerminator set matched by an un-flagged backslash-s, and the
LineTerminator set excluded by an un-flagged dot. -/

/-- ASCII lowercase letter, the JS class [a-z]. -/
def isAsciiLower (c : Char) : Bool := decide (97 ≤ c.toNat ∧ c.toNat ≤ 122)

/-- ASCII uppercase letter, the JS class [A-Z]. -/
def isAsciiUpper (c : Char) : Bool := decide (65 ≤ c.toNat ∧ c.toNat ≤ 90)

/-- ASCII digit, the JS class backslash-d, i.e. [0-9]. -/
def jsDigit (c : Char) : Bool := decide (48 ≤ c.toNat ∧ c.toNat ≤ 57)

/-- ASCII letter, the JS class [a-zA-Z]. -/
def isAsciiLetter (c : Char) : Bool := isAsciiLower c || isAsciiUpper c

/-- The fixed password symbol set of validation.ts: the class [@$!%*?&]. -/
def passwordSymbol (c : Char) : Bool :=
  decide (c = '@' ∨ c = '$' ∨ c = '!' ∨ c = '%' ∨ c = '*' ∨ c = '?' ∨ c = '&')

/-- The single consumed character class of passwordRegex:
[A-Za-z 0-9 @$!%*?&]. -/
def passwordClassChar (c : Char) : Bool :=
  isAsciiLetter c || jsDigit c || passwordSymbol c

/-- ECMAScript LineTerminator characters, which an un-flagged dot does not
match. -/
def jsLineTerminator (c : Char) : Bool :=
  decide (c.toNat = 0xA ∨ c.toNat = 0xD ∨ c.toNat = 0x2028 ∨ c.toNat = 0x2029)

/-- The ECMAScript whitespace class matched by backslash-s (and trimmed by
String.prototype.trim): tab, LF, VT, FF, CR, space, NBSP, Ogham space mark,
the en/em space range, line and paragraph separators, narrow NBSP, medium
mathematical space, ideographic space, and the BOM. -/
def jsWhitespace (c : Char) : Bool :=
  decide (c.toNat = 0x9 ∨ c.toNat = 0xA ∨ c.toNat = 0xB ∨ c.toNat = 0xC ∨
    c.toNat = 0xD ∨ c.toNat = 0x20 ∨ c.toNat = 0xA0 ∨ c.toNat = 0x1680 ∨
    (0x2000 ≤ c.toNat ∧ c.toNat ≤ 0x200A) ∨ c.toNat = 0x2028 ∨
    c.toNat = 0x2029 ∨ c.toNat = 0x202F ∨ c.toNat = 0x205F ∨
    c.toNat = 0x3000 ∨ c.toNat = 0xFEFF)

/-- JavaScript String.prototype.trim: strip jsWhitespace from both ends. -/
def jsTrim (s : String) : String :=
  String.mk (((s.toList.dropWhile jsWhitespace).reverse.dropWhile
    jsWhitespace).reverse)

/-! ### Regular-expression tests from validation.ts -/

/-- One lookahead of passwordRegex, of the shape (?=.*C) evaluated at the
start of the string: some character satisfying p occurs, preceded only by
characters an un-flagged dot can match (non-LineTerminator).  Since every
class C used in passwordRegex contains no LineTerminator, this is equivalent
to: the maximal LineTerminator-free prefix contains a character of C. -/
def dotStarLookahead (p : Char → Bool) (cs : List Char) : Bool :=
  (cs.takeWhile (fun c => !jsLineTerminator c)).any p

/-- Test of passwordRegex: anchored at the start only, four lookaheads
(?=.*[a-z]) (?=.*[A-Z]) (?=.*[0-9]) (?=.*[@$!%*?&]) followed by exactly one
consumed character, which must lie in the combined class [A-Za-z0-9@$!%*?&]
(the pattern has no quantifier and no end anchor after that class). -/
def passwordRegexTest (s : String) : Bool :=
  match s.toList with
  | [] => false
  | c :: _ =>
    dotStarLookahead isAsciiLower s.toList &&
    dotStarLookahead isAsciiUpper s.toList &&
    dotStarLookahead jsDigit s.toList &&
    dotStarLookahead passwordSymbol s.toList &&
    passwordClassChar c

/-- Test of nameRegex, fully anchored [a-zA-Z backslash-s]+: a non-empty
string all of whose characters are ASCII letters or jsWhitespace. -/
def nameRegexTest (s : String) : Bool :=
  !s.toList.isEmpty && s.toList.all (fun c => isAsciiLetter c || jsWhitespace c)

/-- Test of otpRegex, fully anchored backslash-d{6}: exactly six ASCII
digits. -/
def otpRegexTest (s : String) : Bool :=
  decide (s.length = 6) && s.toList.all jsDigit

/-! ### Validators (validation.ts lines 44-58) -/

/-- validatePassword: password.length at least 8 and passwordRegex.test. -/
def validatePassword (password : String) : Bool :=
  decide (8 ≤ password.length) && passwordRegexTest password

/-- validateName: 2 to 50 characters and nameRegex.test. -/
def validateName (name : String) : Bool :=
  decide (2 ≤ name.length) && decide (name.length ≤ 50) && nameRegexTest name

/-- validateOTP: otp.length equal to 6 and otpRegex.test. -/
def validateOTP (otp : String) : Bool :=
  decide (otp.length = 6) && otpRegexTest otp

/-- Modelled from the words of the password claim (not from the source):
length at least 8 and at least one lowercase letter, one uppercase letter,
one digit, and one symbol from the fixed set, anywhere in the string. -/
def passwordClaimSpec (password : String) : Bool :=
  decide (8 ≤ password.length) && password.toList.any isAsciiLower &&
  password.toList.any isAsciiUpper && password.toList.any jsDigit &&
  password.toList.any passwordSymbol

/-- Modelled from the words of the name claim (not from the source):
length 2 to 50 and every character an ASCII letter or the space character. -/
def nameClaimSpec (name : String) : Bool :=
  decide (2 ≤ name.length) && decide (name.length ≤ 50) &&
  name.toList.all (fun c => isAsciiLetter c || decide (c = ' '))

/-! ### API client response interceptor (src/utils/api.ts lines 26-35) -/

/-- Browser-visible state touched by the interceptor: the persisted token
under the localStorage key and the current window location. -/
structure BrowserState where
  token : Option String
  location : String
deriving DecidableEq

/-- An HTTP response: status code plus an abstract body. -/
structure HttpResponse where
  status : Nat
  body : String
deriving DecidableEq

/-- Outcome delivered to the response interceptor: axios fulfils responses it
considers successful (2xx by default, so a 401 always arrives as a rejection)
and rejects the rest; a rejection carries an optional response (absent on a
network failure) and an abstract error payload. -/
inductive ApiOutcome where
  | fulfilled (r : HttpResponse)
  | rejected (response : Option HttpResponse) (errPayload : String)
deriving DecidableEq

/-- Status of the optional response of a rejection, error.response?.status. -/
def rejectionStatus (response : Option HttpResponse) : Option Nat :=
  response.map (fun r => r.status)

/-- The response interceptor of api.ts: a fulfilled response passes through
unchanged; a rejection whose status is 401 removes the persisted token and
sets window.location.href to /signin; every rejection is re-raised to the
caller unchanged. -/
def responseInterceptor (b : BrowserState) (o : ApiOutcome) :
    BrowserState × ApiOutcome :=
  match o with
  | .fulfilled r => (b, .fulfilled r)
  | .rejected response errPayload =>
    if rejectionStatus response = some 401 then
      ({ b with token := none, location := "/signin" },
        .rejected response errPayload)
    else (b, .rejected response errPayload)

/-! ### Auth screens: OTP sub-flow (SignIn.tsx and the SignUp component) -/

/-- The authenticated user object returned by the server on verification. -/
structure UserData where
  name : String
  email : String
  dateOfBirth : Option String
deriving DecidableEq

/-- Screen-local React state of SignIn (SignIn.tsx lines 18-23); the SignUp
component declares the identical hooks: loading flag, OTP-pane flag, OTP
input value, verification target email, resend counter, and the timestamp of
the last successful resend in milliseconds. -/
structure OtpScreenState where
  isLoading : Bool
  showOTP : Bool
  otp : String
  userEmail : String
  otpRequestCount : Nat
  lastOtpRequest : Option Int
deriving DecidableEq

/-- Server reply to the verify-otp call: token and user on success, or the
message surfaced by the catch branch on failure. -/
inductive VerifyReply where
  | ok (token : String) (user : UserData)
  | failed (msg : String)
deriving DecidableEq

/-- Observable result of one OTP resend attempt (handleOTPRequest). -/
inductive RequestOutcome where
  | noEmail
  | throttled (remainingSecs : Int)
  | limitReached
  | sent
  | sendFailed
deriving DecidableEq

/-- Math.ceil (a / b) for integer a and positive b. -/
def mathCeilDiv (a b : Int) : Int := -((-a).fdiv b)

/-- Full effect of one OTP verification attempt (handleOTPVerification): the
screen state afterwards, whether the verify-otp call was issued, the toast
shown, the credentials committed to the session, and the navigation target. -/
structure VerifyStep where
  state : OtpScreenState
  networkCalled : Bool
  toast : String
  sessionLogin : Option (String × UserData)
  navTarget : Option String
deriving DecidableEq

namespace SignInPage

/-- onSubmit of SignIn.tsx (lines 45-60): sets the loading flag, posts
/auth/login with the form email; on success records the email as the
verification target and shows the OTP pane; the finally branch always clears
the loading flag. The resend throttle fields are untouched. -/
def onSubmit (email : String) (loginSucceeds : Bool) (s : OtpScreenState) :
    OtpScreenState :=
  if loginSucceeds then
    { s with isLoading := false, userEmail := email, showOTP := true }
  else { s with isLoading := false }

/-- handleOTPRequest of SignIn.tsx (lines 66-95): reject when no email is
recorded; then reject when the last request is under 60 seconds old,
reporting Math.ceil of the remaining wait in seconds; then reject when five
requests were already made; otherwise issue the request-otp call and, only
if it succeeds, increment the counter and record nowMs (the Date captured at
entry). Returns the new state, the outcome, and whether the network call was
issued. -/
def handleOTPRequest (nowMs : Int) (sendSucceeds : Bool) (s : OtpScreenState) :
    OtpScreenState × RequestOutcome × Bool :=
  let afterThrottle : OtpScreenState × RequestOutcome × Bool :=
    if 5 ≤ s.otpRequestCount then (s, .limitReached, false)
    else if sendSucceeds then
      ({ s with otpRequestCount := s.otpRequestCount + 1,
                lastOtpRequest := some nowMs }, .sent, true)
    else (s, .sendFailed, true)
  if s.userEmail = "" then (s, .noEmail, false)
  else
    match s.lastOtpRequest with
    | some last =>
      if nowMs - 60000 < last then
        (s, .throttled (mathCeilDiv (last + 60000 - nowMs) 1000), false)
      else afterThrottle
    | none => afterThrottle

/-- handleOTPVerification of SignIn.tsx (lines 97-125): reject locally when
the OTP or the email is empty, when the OTP is not 6 characters long, or
when it fails the six-digit regex; otherwise post /auth/verify-otp and, on
success, commit the returned token and user to the session and navigate to
/welcome; on failure surface the server message and stay put. -/
def handleOTPVerification (reply : VerifyReply) (s : OtpScreenState) :
    VerifyStep :=
  if s.otp = "" ∨ s.userEmail = "" then
    ⟨s, false, "Please enter OTP and email", none, none⟩
  else if s.otp.length ≠ 6 then
    ⟨s, false, "OTP must be exactly 6 digits", none, none⟩
  else if otpRegexTest s.otp = false then
    ⟨s, false, "OTP must contain only numbers", none, none⟩
  else
    match reply with
    | .ok token user =>
      ⟨s, true, "Email verified successfully!", some (token, user),
        some "/welcome"⟩
    | .failed msg => ⟨s, true, msg, none, none⟩

/-- The disabled attribute of the resend button (SignIn.tsx line 162):
otpRequestCount at least 5, with no reference to the timestamp. -/
def resendDisabled (s : OtpScreenState) : Bool := decide (5 ≤ s.otpRequestCount)

/-- onChange of the OTP input (SignIn.tsx lines 148-151): stores the typed
string with every non-digit removed (global replace of the non-digit class
by the empty string), regardless of the previously stored value. -/
def otpInputOnChange (raw : String) (s : OtpScreenState) : OtpScreenState :=
  { s with otp := String.mk (raw.toList.filter jsDigit) }

end SignInPage

namespace SignUpPage

/-- onSubmit of the SignUp component (lines 265-294 of its file): posts
/auth/register with name, email and optional date of birth; on success
records the email as the verification target and shows the OTP pane; the
finally branch always clears the loading flag (the catch branch only picks a
toast message and changes no state). -/
def onSubmit (name email dateOfBirth : String) (registerSucceeds : Bool)
    (s : OtpScreenState) : OtpScreenState :=
  if registerSucceeds then
    { s with isLoading := false, userEmail := email, showOTP := true }
  else { s with isLoading := false }

/-- handleOTPRequest of the SignUp component (lines 296-325), identical in
text to the SignIn one. -/
def handleOTPRequest (nowMs : Int) (sendSucceeds : Bool) (s : OtpScreenState) :
    OtpScreenState × RequestOutcome × Bool :=
  let afterThrottle : OtpScreenState × RequestOutcome × Bool :=
    if 5 ≤ s.otpRequestCount then (s, .limitReached, false)
    else if sendSucceeds then
      ({ s with otpRequestCount := s.otpRequestCount + 1,
                lastOtpRequest := some nowMs }, .sent, true)
    else (s, .sendFailed, true)
  if s.userEmail = "" then (s, .noEmail, false)
  else
    match s.lastOtpRequest with
    | some last =>
      if nowMs - 60000 < last then
        (s, .throttled (mathCeilDiv (last + 60000 - nowMs) 1000), false)
      else afterThrottle
    | none => afterThrottle

/-- handleOTPVerification of the SignUp component (lines 327-355), identical
in text to the SignIn one. -/
def handleOTPVerification (reply : VerifyReply) (s : OtpScreenState) :
    VerifyStep :=
  if s.otp = "" ∨ s.userEmail = "" then
    ⟨s, false, "Please enter OTP and email", none, none⟩
  else if s.otp.length ≠ 6 then
    ⟨s, false, "OTP must be exactly 6 digits", none, none⟩
  else if otpRegexTest s.otp = false then
    ⟨s, false, "OTP must contain only numbers", none, none⟩
  else
    match reply with
    | .ok token user =>
      ⟨s, true, "Email verified successfully!", some (token, user),
        some "/welcome"⟩
    | .failed msg => ⟨s, true, msg, none, none⟩

/-- The disabled attribute of the SignUp resend button (line 392 of its
file). -/
def resendDisabled (s : OtpScreenState) : Bool := decide (5 ≤ s.otpRequestCount)

/-- onChange of the SignUp OTP input (lines 378-381 of its file). -/
def otpInputOnChange (raw : String) (s : OtpScreenState) : OtpScreenState :=
  { s with otp := String.mk (raw.toList.filter jsDigit) }

end SignUpPage

/-! ### Notes dashboard (Dashboard.tsx lines 15-85) -/

/-- A note as held in the local cache. -/
structure Note where
  _id : String
  title : String
  content : String
  createdAt : String
  updatedAt : String
deriving DecidableEq

/-- Screen-local React state of the Dashboard component: the cached notes
list (newest first), the loading flag, the create-form flag, and the two
form fields. -/
structure DashboardState where
  notes : List Note
  isLoading : Bool
  showCreateForm : Bool
  formTitle : String
  formContent : String
deriving DecidableEq

/-- Server reply to the create-note call: the created note on success, or
the message surfaced by the catch branch. -/
inductive CreateReply where
  | ok (note : Note)
  | failed (msg : String)
deriving DecidableEq

namespace Dashboard

/-- handleCreateNote of Dashboard.tsx (lines 41-57): when either trimmed
form field is empty, reject locally; otherwise post /notes and, on success,
prepend the server-returned note to the cache, clear the form and close it;
on failure change nothing. Returns the new state, whether the network call
was issued, and the toast message. -/
def handleCreateNote (reply : CreateReply) (s : DashboardState) :
    DashboardState × Bool × String :=
  if jsTrim s.formTitle = "" ∨ jsTrim s.formContent = "" then
    (s, false, "Please fill in all fields")
  else
    match reply with
    | .ok note =>
      ({ s with notes := note :: s.notes, formTitle := "", formContent := "",
                showCreateForm := false }, true, "Note created successfully!")
    | .failed msg => (s, true, msg)

end Dashboard

/-! ### Helper lemmas -/

theorem takeWhile_eq_self_of_all {p : Char → Bool} :
    ∀ l : List Char, (∀ c ∈ l, p c = true) → l.takeWhile p = l := by
  intro l h
  induction l with
  | nil => rfl
  | cons c t ih =>
    have hc : p c = true := h c (List.mem_cons_self c t)
    simp [List.takeWhile, hc]
    exact fun x hx => h x (List.mem_cons_of_mem c hx)

theorem string_length_eq_data (s : String) : s.length = s.toList.length := rfl

/-- The SignUp verification handler is character-for-character the SignIn
one, so the two definitions are definitionally equal. -/
theorem signup_verify_eq :
    SignUpPage.handleOTPVerification = SignInPage.handleOTPVerification := rfl

/-- The SignUp resend handler is character-for-character the SignIn one. -/
theorem signup_request_eq :
    SignUpPage.handleOTPRequest = SignInPage.handleOTPRequest := rfl

/-- The SignUp resend-button disabled attribute equals the SignIn one. -/
theorem signup_resend_disabled_eq :
    SignUpPage.resendDisabled = SignInPage.resendDisabled := rfl

/-- The SignUp OTP input onChange handler equals the SignIn one. -/
theorem signup_otp_input_eq :
    SignUpPage.otpInputOnChange = SignInPage.otpInputOnChange := rfl

/-- A verification attempt whose stored OTP is not exactly six digits issues
no network call and leaves the screen state unchanged. -/
theorem verify_reject_of_not_six (reply : VerifyReply) (s : OtpScreenState)
    (h : ¬(s.otp.length = 6 ∧ ∀ c ∈ s.otp.toList, jsDigit c = true)) :
    (SignInPage.handleOTPVerification reply s).networkCalled = false ∧
    (SignInPage.handleOTPVerification reply s).state = s := by
  unfold SignInPage.handleOTPVerification
  by_cases h1 : s.otp = "" ∨ s.userEmail = ""
  · rw [if_pos h1]; exact ⟨rfl, rfl⟩
  · rw [if_neg h1]
    by_cases h2 : s.otp.length ≠ 6
    · rw [if_pos h2]; exact ⟨rfl, rfl⟩
    · rw [if_neg h2]
      push_neg at h2
      have h3 : otpRegexTest s.otp = false := by
        rcases Bool.eq_false_or_eq_true (otpRegexTest s.otp) with ht | hf
        · exfalso
          apply h
          simp only [otpRegexTest, Bool.and_eq_true, decide_eq_true_eq,
            List.all_eq_true] at ht
          exact ⟨ht.1, ht.2⟩
        · exact hf
      rw [if_pos h3]
      exact ⟨rfl, rfl⟩

/-- The verify-otp call is issued only for a six-digit stored OTP. -/
theorem verify_call_implies_six (reply : VerifyReply) (s : OtpScreenState)
    (hc : (SignInPage.handleOTPVerification reply s).networkCalled = true) :
    s.otp.length = 6 ∧ ∀ c ∈ s.otp.toList, jsDigit c = true := by
  by_contra h
  have hf := (verify_reject_of_not_six reply s h).1
  rw [hf] at hc
  simp at hc

/-- The concrete input 12a456 is rejected with the numeric-only message. -/
theorem verify_numeric_reject (reply : VerifyReply) (s : OtpScreenState)
    (hotp : s.otp = "12a456") (he : s.userEmail ≠ "") :
    (SignInPage.handleOTPVerification reply s).networkCalled = false ∧
    (SignInPage.handleOTPVerification reply s).toast =
      "OTP must contain only numbers" ∧
    (SignInPage.handleOTPVerification reply s).state = s := by
  have h1 : ¬(s.otp = "" ∨ s.userEmail = "") := by
    rw [hotp]; push_neg; exact ⟨by decide, he⟩
  have h2 : ¬(s.otp.length ≠ 6) := by rw [hotp]; decide
  have h3 : otpRegexTest s.otp = false := by rw [hotp]; decide
  unfold SignInPage.handleOTPVerification
  rw [if_neg h1, if_neg h2, if_pos h3]
  exact ⟨rfl, rfl, rfl⟩

/-- With the resend budget exhausted, handleOTPRequest issues no network
call and changes nothing, whichever rejection branch fires first. -/
theorem request_limit_reject (nowMs : Int) (sendSucceeds : Bool)
    (s : OtpScreenState) (h : 5 ≤ s.otpRequestCount) :
    (SignInPage.handleOTPRequest nowMs sendSucceeds s).2.2 = false ∧
    (SignInPage.handleOTPRequest nowMs sendSucceeds s).1 = s := by
  by_cases h1 : s.userEmail = ""
  · simp [SignInPage.handleOTPRequest, h1]
  · rcases hl : s.lastOtpRequest with _ | last
    · simp [SignInPage.handleOTPRequest, h1, hl, h]
    · by_cases h2 : nowMs - 60000 < last
      · simp [SignInPage.handleOTPRequest, h1, hl, h2]
      · simp [SignInPage.handleOTPRequest, h1, hl, h2, h]

/-- Every run of handleOTPRequest either is the successful-send run, which
increments the counter and stamps nowMs, or leaves the state unchanged
without a successful call. -/
theorem request_shape (nowMs : Int) (succ : Bool) (s : OtpScreenState) :
    (SignInPage.handleOTPRequest nowMs succ s =
        ({ s with otpRequestCount := s.otpRequestCount + 1,
                  lastOtpRequest := some nowMs }, .sent, true) ∧
      succ = true) ∨
    ((SignInPage.handleOTPRequest nowMs succ s).1 = s ∧
      ¬((SignInPage.handleOTPRequest nowMs succ s).2.2 = true ∧
        succ = true)) := by
  by_cases h1 : s.userEmail = ""
  · right; simp [SignInPage.handleOTPRequest, h1]
  · rcases hl : s.lastOtpRequest with _ | last
    · by_cases h3 : 5 ≤ s.otpRequestCount
      · right; simp [SignInPage.handleOTPRequest, h1, hl, h3]
      · cases succ
        · right; simp [SignInPage.handleOTPRequest, h1, hl, h3]
        · left; simp [SignInPage.handleOTPRequest, h1, hl, h3]
    · by_cases h2 : nowMs - 60000 < last
      · right; simp [SignInPage.handleOTPRequest, h1, hl, h2]
      · by_cases h3 : 5 ≤ s.otpRequestCount
        · right; simp [SignInPage.handleOTPRequest, h1, hl, h2, h3]
        · cases succ
          · right; simp [SignInPage.handleOTPRequest, h1, hl, h2, h3]
          · left; simp [SignInPage.handleOTPRequest, h1, hl, h2, h3]

/-- The throttle fields are updated exactly on a successful issued call. -/
theorem request_update_iff (nowMs : Int) (succ : Bool) (s : OtpScreenState) :
    ((SignInPage.handleOTPRequest nowMs succ s).1.otpRequestCount =
        s.otpRequestCount + 1 ∧
      (SignInPage.handleOTPRequest nowMs succ s).1.lastOtpRequest =
        some nowMs) ↔
    ((SignInPage.handleOTPRequest nowMs succ s).2.2 = true ∧ succ = true) := by
  rcases request_shape nowMs succ s with ⟨heq, hsucc⟩ | ⟨hst, hnc⟩
  · rw [heq]
    simp [hsucc]
  · rw [hst]
    constructor
    · rintro ⟨hcount, -⟩
      omega
    · intro hc
      exact absurd hc hnc

/-- Any run that is not a successful issued call leaves the state intact. -/
theorem request_unchanged (nowMs : Int) (succ : Bool) (s : OtpScreenState)
    (h : ¬((SignInPage.handleOTPRequest nowMs succ s).2.2 = true ∧
        succ = true)) :
    (SignInPage.handleOTPRequest nowMs succ s).1 = s := by
  rcases request_shape nowMs succ s with ⟨heq, hsucc⟩ | ⟨hst, -⟩
  · exact absurd ⟨by rw [heq], hsucc⟩ h
  · exact hst

/-- A resend attempt made exactly 30 seconds after the recorded one is
throttled with a reported wait of 30 seconds. -/
theorem request_throttled_thirty (s : OtpScreenState) (last : Int)
    (succ : Bool) (he : s.userEmail ≠ "") (hl : s.lastOtpRequest = some last) :
    SignInPage.handleOTPRequest (last + 30000) succ s =
      (s, .throttled 30, false) := by
  have h2 : (last + 30000) - 60000 < last := by omega
  have h30 : mathCeilDiv 30000 1000 = 30 := by decide
  simp [SignInPage.handleOTPRequest, he, hl, h2, h30]

/-! ### Claims -/

/-- C6: validateOTP returns true for every string of exactly 6 numeric
characters, and false for every string whose length is not 6 or that
contains a non-digit character. -/
theorem claim_C6_otp_iff (s : String) :
    validateOTP s = true ↔ (s.length = 6 ∧ ∀ c ∈ s.toList, jsDigit c = true) := by
  simp only [validateOTP, otpRegexTest, Bool.and_eq_true, decide_eq_true_eq,
    List.all_eq_true]
  tauto

/-- C5 counterexample: the claim says validateName accepts exactly strings of
letters and spaces of length 2 to 50, but the string with a tab between two
letters is accepted by validateName while the tab is neither a letter nor a
space. -/
theorem claim_C5_counterexample :
    validateName "a\tb" = true ∧ nameClaimSpec "a\tb" = false := by decide

/-- C5 amended: validateName returns true iff the length is between 2 and 50
and every character is an ASCII letter or a JavaScript whitespace character
(the backslash-s class: space, tab, line feed, vertical tab, form feed,
carriage return, NBSP, and the Unicode space and line separators), not only
the space character. -/
theorem claim_C5_name_amended (s : String) :
    validateName s = true ↔
      (2 ≤ s.length ∧ s.length ≤ 50 ∧
        ∀ c ∈ s.toList, (isAsciiLetter c || jsWhitespace c) = true) := by
  simp only [validateName, nameRegexTest, Bool.and_eq_true, decide_eq_true_eq,
    List.all_eq_true, Bool.not_eq_true', List.isEmpty_eq_false_iff_exists_mem]
  constructor
  · rintro ⟨⟨h1, h2⟩, _, hall⟩
    exact ⟨h1, h2, hall⟩
  · rintro ⟨h1, h2, hall⟩
    refine ⟨⟨h1, h2⟩, ?_, hall⟩
    rcases hl : s.toList with _ | ⟨c, t⟩
    · rw [string_length_eq_data, hl] at h1
      simp at h1
    · exact ⟨c, List.mem_cons_self c t⟩

/-- C4 counterexample: the claim says validatePassword accepts every string of
length at least 8 containing a lowercase letter, an uppercase letter, a digit
and a symbol from the fixed set, but passwordRegex also constrains the FIRST
character to lie in [A-Za-z0-9@$!%*?&]; a string starting with a hash sign
that otherwise satisfies every requirement is rejected. -/
theorem claim_C4_counterexample :
    passwordClaimSpec "#aA1@bcd" = true ∧ validatePassword "#aA1@bcd" = false := by
  decide

/-- C4 amended: for strings containing no ECMAScript LineTerminator
character, validatePassword returns true iff the length is at least 8, the
string contains at least one lowercase letter, one uppercase letter, one
digit and one symbol from @$!%*?&, and additionally its first character is a
letter, a digit or one of those symbols (the single consumed character class
of passwordRegex, which is not anchored at the end). -/
theorem claim_C4_password_amended (s : String)
    (h : ∀ c ∈ s.toList, jsLineTerminator c = false) :
    validatePassword s = true ↔
      (8 ≤ s.length ∧ (∃ c ∈ s.toList, isAsciiLower c = true) ∧
        (∃ c ∈ s.toList, isAsciiUpper c = true) ∧
        (∃ c ∈ s.toList, jsDigit c = true) ∧
        (∃ c ∈ s.toList, passwordSymbol c = true) ∧
        ∃ c, s.toList.head? = some c ∧ passwordClassChar c = true) := by
  have htake : s.toList.takeWhile (fun c => !jsLineTerminator c) = s.toList :=
    takeWhile_eq_self_of_all _ (fun c hc => by simp [h c hc])
  rcases hl : s.toList with _ | ⟨c, t⟩
  · have hlen : s.length = 0 := by rw [string_length_eq_data, hl]; rfl
    simp [validatePassword, passwordRegexTest, hl, hlen]
  · rw [hl] at htake
    simp only [validatePassword, passwordRegexTest, dotStarLookahead, hl,
      htake, Bool.and_eq_true, decide_eq_true_eq, List.any_eq_true,
      List.head?_cons, Option.some.injEq, exists_eq_left', and_assoc]

/-- C4 witness: the amended characterisation applied at a concrete
line-terminator-free password. -/
theorem claim_C4_witness :
    (∀ c ∈ ("aA1@bcde" : String).toList, jsLineTerminator c = false) ∧
    (validatePassword "aA1@bcde" = true ↔
      (8 ≤ ("aA1@bcde" : String).length ∧
        (∃ c ∈ ("aA1@bcde" : String).toList, isAsciiLower c = true) ∧
        (∃ c ∈ ("aA1@bcde" : String).toList, isAsciiUpper c = true) ∧
        (∃ c ∈ ("aA1@bcde" : String).toList, jsDigit c = true) ∧
        (∃ c ∈ ("aA1@bcde" : String).toList, passwordSymbol c = true) ∧
        ∃ c, ("aA1@bcde" : String).toList.head? = some c ∧
          passwordClassChar c = true)) :=
  ⟨by decide, claim_C4_password_amended "aA1@bcde" (by decide)⟩

/-- C1: a 401 rejection clears the persisted token and moves the location to
the sign-in screen; every other outcome (fulfilled, or rejected with any
other status or no response at all) leaves token and location unchanged; in
every case the response or error is passed through to the caller unchanged. -/
theorem claim_C1_response_interceptor (b : BrowserState) :
    (∀ r, responseInterceptor b (.fulfilled r) = (b, .fulfilled r)) ∧
    (∀ response errPayload, rejectionStatus response = some 401 →
      responseInterceptor b (.rejected response errPayload) =
        ({ token := none, location := "/signin" },
          .rejected response errPayload)) ∧
    (∀ response errPayload, rejectionStatus response ≠ some 401 →
      responseInterceptor b (.rejected response errPayload) =
        (b, .rejected response errPayload)) := by
  refine ⟨fun r => rfl, ?_, ?_⟩ <;>
    intro response errPayload h <;>
    simp [responseInterceptor, h]

/-- C1 witness: a concrete 401 rejection against a browser holding a token on
the dashboard. -/
theorem claim_C1_witness :
    rejectionStatus (some ⟨401, "unauthorized"⟩) = some 401 ∧
    responseInterceptor ⟨some "tok", "/dashboard"⟩
        (.rejected (some ⟨401, "unauthorized"⟩) "err") =
      (⟨none, "/signin"⟩, .rejected (some ⟨401, "unauthorized"⟩) "err") :=
  ⟨by decide,
    (claim_C1_response_interceptor ⟨some "tok", "/dashboard"⟩).2.1
      (some ⟨401, "unauthorized"⟩) "err" (by decide)⟩

/-- C7: with an empty trimmed title or content, note creation is rejected
locally with the fill-in-all-fields message, no network call, and the state
(in particular the cached list) unchanged; with both fields non-empty, a
confirmed creation prepends exactly the server-returned note to the cached
list leaving the rest unchanged, and a failed call leaves the state
unchanged, so the list never changes before server confirmation. -/
theorem claim_C7_create_note (s : DashboardState) :
    (jsTrim s.formTitle = "" ∨ jsTrim s.formContent = "" →
      ∀ reply, Dashboard.handleCreateNote reply s =
        (s, false, "Please fill in all fields")) ∧
    (jsTrim s.formTitle ≠ "" → jsTrim s.formContent ≠ "" →
      (∀ note, (Dashboard.handleCreateNote (.ok note) s).1.notes =
          note :: s.notes ∧
        (Dashboard.handleCreateNote (.ok note) s).2.1 = true) ∧
      ∀ msg, Dashboard.handleCreateNote (.failed msg) s = (s, true, msg)) := by
  refine ⟨fun h reply => ?_, fun h1 h2 => ?_⟩
  · unfold Dashboard.handleCreateNote
    rw [if_pos h]
  · have hcond : ¬(jsTrim s.formTitle = "" ∨ jsTrim s.formContent = "") := by
      tauto
    refine ⟨fun note => ?_, fun msg => ?_⟩ <;>
      unfold Dashboard.handleCreateNote <;> rw [if_neg hcond]
    exact ⟨rfl, rfl⟩

/-- C7 witness: creating a note with populated fields against a cache of one
note prepends the server-returned note. -/
theorem claim_C7_witness :
    jsTrim "T" ≠ "" ∧ jsTrim "C" ≠ "" ∧
    (Dashboard.handleCreateNote (.ok ⟨"2", "t2", "c2", "d2", "d2"⟩)
        ⟨[⟨"1", "t1", "c1", "d1", "d1"⟩], false, true, "T", "C"⟩).1.notes =
      [⟨"2", "t2", "c2", "d2", "d2"⟩, ⟨"1", "t1", "c1", "d1", "d1"⟩] :=
  ⟨by decide, by decide,
    (((claim_C7_create_note ⟨[⟨"1", "t1", "c1", "d1", "d1"⟩], false, true,
        "T", "C"⟩).2 (by decide) (by decide)).1 ⟨"2", "t2", "c2", "d2", "d2"⟩).1⟩

/-- C2: on both auth screens, a stored OTP that is not exactly six digits
makes verification a local rejection — no network call, screen state (hence
the OtpPending pane) unchanged; the verify-otp call is issued only for a
six-digit OTP; and the concrete input 12a456 is rejected with the
numeric-only message. -/
theorem claim_C2_verify_local (s : OtpScreenState) (reply : VerifyReply) :
    (¬(s.otp.length = 6 ∧ ∀ c ∈ s.otp.toList, jsDigit c = true) →
      ((SignInPage.handleOTPVerification reply s).networkCalled = false ∧
        (SignInPage.handleOTPVerification reply s).state = s) ∧
      ((SignUpPage.handleOTPVerification reply s).networkCalled = false ∧
        (SignUpPage.handleOTPVerification reply s).state = s)) ∧
    ((SignInPage.handleOTPVerification reply s).networkCalled = true →
      s.otp.length = 6 ∧ ∀ c ∈ s.otp.toList, jsDigit c = true) ∧
    ((SignUpPage.handleOTPVerification reply s).networkCalled = true →
      s.otp.length = 6 ∧ ∀ c ∈ s.otp.toList, jsDigit c = true) ∧
    (s.otp = "12a456" → s.userEmail ≠ "" →
      (SignInPage.handleOTPVerification reply s).networkCalled = false ∧
      (SignInPage.handleOTPVerification reply s).toast =
        "OTP must contain only numbers" ∧
      (SignUpPage.handleOTPVerification reply s).networkCalled = false ∧
      (SignUpPage.handleOTPVerification reply s).toast =
        "OTP must contain only numbers") := by
  rw [signup_verify_eq]
  refine ⟨fun h => ⟨verify_reject_of_not_six reply s h,
      verify_reject_of_not_six reply s h⟩,
    verify_call_implies_six reply s, verify_call_implies_six reply s,
    fun h1 h2 => ?_⟩
  exact ⟨(verify_numeric_reject reply s h1 h2).1,
    (verify_numeric_reject reply s h1 h2).2.1,
    (verify_numeric_reject reply s h1 h2).1,
    (verify_numeric_reject reply s h1 h2).2.1⟩

/-- C2 witness: the OTP 12a456 with a recorded email is rejected with the
numeric-only message and no network call. -/
theorem claim_C2_witness :
    (⟨false, true, "12a456", "jane@example.com", 0, none⟩ :
        OtpScreenState).otp = "12a456" ∧
    (SignInPage.handleOTPVerification (.failed "bad")
        ⟨false, true, "12a456", "jane@example.com", 0, none⟩).networkCalled =
      false ∧
    (SignInPage.handleOTPVerification (.failed "bad")
        ⟨false, true, "12a456", "jane@example.com", 0, none⟩).toast =
      "OTP must contain only numbers" :=
  ⟨rfl,
    ((claim_C2_verify_local
        ⟨false, true, "12a456", "jane@example.com", 0, none⟩
        (.failed "bad")).2.2.2 rfl (by decide)).1,
    ((claim_C2_verify_local
        ⟨false, true, "12a456", "jane@example.com", 0, none⟩
        (.failed "bad")).2.2.2 rfl (by decide)).2.1⟩

/-- C3: with otpRequestCount at least 5, every further resend attempt on
either auth screen is rejected without a network call and without any state
change, and the resend button is rendered disabled, independent of the
time-based throttle (the timestamp field is arbitrary). -/
theorem claim_C3_resend_limit (s : OtpScreenState)
    (h : 5 ≤ s.otpRequestCount) :
    (∀ nowMs sendSucceeds,
      (SignInPage.handleOTPRequest nowMs sendSucceeds s).2.2 = false ∧
      (SignInPage.handleOTPRequest nowMs sendSucceeds s).1 = s ∧
      (SignUpPage.handleOTPRequest nowMs sendSucceeds s).2.2 = false ∧
      (SignUpPage.handleOTPRequest nowMs sendSucceeds s).1 = s) ∧
    SignInPage.resendDisabled s = true ∧
    SignUpPage.resendDisabled s = true ∧
    (∀ t, SignInPage.resendDisabled { s with lastOtpRequest := t } = true ∧
      SignUpPage.resendDisabled { s with lastOtpRequest := t } = true) := by
  rw [signup_request_eq, signup_resend_disabled_eq]
  refine ⟨fun nowMs succ => ?_, ?_, ?_, fun t => ?_⟩
  · exact ⟨(request_limit_reject nowMs succ s h).1,
      (request_limit_reject nowMs succ s h).2,
      (request_limit_reject nowMs succ s h).1,
      (request_limit_reject nowMs succ s h).2⟩
  · simp [SignInPage.resendDisabled, h]
  · simp [SignInPage.resendDisabled, h]
  · constructor <;> simp [SignInPage.resendDisabled, h]

/-- C3 witness: a screen with five requests already made rejects a resend
without a network call and renders the button disabled. -/
theorem claim_C3_witness :
    5 ≤ (⟨false, true, "", "a@b.c", 5, none⟩ :
        OtpScreenState).otpRequestCount ∧
    (SignInPage.handleOTPRequest 0 true
        ⟨false, true, "", "a@b.c", 5, none⟩).2.2 = false ∧
    SignInPage.resendDisabled ⟨false, true, "", "a@b.c", 5, none⟩ = true :=
  ⟨by decide,
    ((claim_C3_resend_limit ⟨false, true, "", "a@b.c", 5, none⟩
        (by decide)).1 0 true).1,
    (claim_C3_resend_limit ⟨false, true, "", "a@b.c", 5, none⟩
        (by decide)).2.1⟩

/-- C8: a resend attempted exactly 30 seconds after the recorded request is
rejected on both auth screens without a network call and without state
change, and the reported remaining wait (Math.ceil of lastRequest + 60s −
now in seconds) lies between 29 and 31: it is exactly 30. -/
theorem claim_C8_throttle_wait (s : OtpScreenState) (last nowMs : Int)
    (sendSucceeds : Bool) (he : s.userEmail ≠ "")
    (hl : s.lastOtpRequest = some last) (hn : nowMs = last + 30000) :
    ∃ r : Int, SignInPage.handleOTPRequest nowMs sendSucceeds s =
        (s, .throttled r, false) ∧
      SignUpPage.handleOTPRequest nowMs sendSucceeds s =
        (s, .throttled r, false) ∧
      29 ≤ r ∧ r ≤ 31 := by
  subst hn
  rw [signup_request_eq]
  exact ⟨30, request_throttled_thirty s last sendSucceeds he hl,
    request_throttled_thirty s last sendSucceeds he hl,
    by norm_num, by norm_num⟩

/-- C8 witness: last request at 1000 ms, attempt at 31000 ms. -/
theorem claim_C8_witness :
    (⟨false, true, "", "a@b.c", 1, some 1000⟩ :
        OtpScreenState).userEmail ≠ "" ∧
    ∃ r : Int, SignInPage.handleOTPRequest 31000 true
        ⟨false, true, "", "a@b.c", 1, some 1000⟩ =
        (⟨false, true, "", "a@b.c", 1, some 1000⟩, .throttled r, false) ∧
      SignUpPage.handleOTPRequest 31000 true
        ⟨false, true, "", "a@b.c", 1, some 1000⟩ =
        (⟨false, true, "", "a@b.c", 1, some 1000⟩, .throttled r, false) ∧
      29 ≤ r ∧ r ≤ 31 :=
  ⟨by decide,
    claim_C8_throttle_wait ⟨false, true, "", "a@b.c", 1, some 1000⟩
      1000 31000 true (by decide) rfl (by norm_num)⟩

/-- C9: on both auth screens, typing raw text into the OTP field stores the
raw string with every non-digit removed — independent of the previously
stored value — so the stored OTP always consists solely of digits. -/
theorem claim_C9_otp_sanitise (s s' : OtpScreenState) (raw : String) :
    (SignInPage.otpInputOnChange raw s).otp =
      String.mk (raw.toList.filter jsDigit) ∧
    (SignUpPage.otpInputOnChange raw s).otp =
      String.mk (raw.toList.filter jsDigit) ∧
    (∀ c ∈ (SignInPage.otpInputOnChange raw s).otp.toList,
      jsDigit c = true) ∧
    (SignInPage.otpInputOnChange raw s).otp =
      (SignInPage.otpInputOnChange raw s').otp := by
  rw [signup_otp_input_eq]
  refine ⟨rfl, rfl, ?_, rfl⟩
  intro c hc
  exact List.of_mem_filter hc

/-- C10: on both auth screens the throttle state (otpRequestCount,
lastOtpRequest) is incremented and stamped with the attempt time exactly
when the resend call is issued and succeeds; a throttle rejection or a
failed call leaves the whole state unchanged; and the form-submission
handlers (initial OTP dispatch) never touch the two throttle fields. -/
theorem claim_C10_throttle_update (s : OtpScreenState) (nowMs : Int)
    (sendSucceeds : Bool) :
    (((SignInPage.handleOTPRequest nowMs sendSucceeds s).1.otpRequestCount =
          s.otpRequestCount + 1 ∧
      (SignInPage.handleOTPRequest nowMs sendSucceeds s).1.lastOtpRequest =
          some nowMs) ↔
      ((SignInPage.handleOTPRequest nowMs sendSucceeds s).2.2 = true ∧
        sendSucceeds = true)) ∧
    (¬((SignInPage.handleOTPRequest nowMs sendSucceeds s).2.2 = true ∧
        sendSucceeds = true) →
      (SignInPage.handleOTPRequest nowMs sendSucceeds s).1 = s) ∧
    (∀ email,
      (SignInPage.onSubmit email sendSucceeds s).otpRequestCount =
        s.otpRequestCount ∧
      (SignInPage.onSubmit email sendSucceeds s).lastOtpRequest =
        s.lastOtpRequest) ∧
    (((SignUpPage.handleOTPRequest nowMs sendSucceeds s).1.otpRequestCount =
          s.otpRequestCount + 1 ∧
      (SignUpPage.handleOTPRequest nowMs sendSucceeds s).1.lastOtpRequest =
          some nowMs) ↔
      ((SignUpPage.handleOTPRequest nowMs sendSucceeds s).2.2 = true ∧
        sendSucceeds = true)) ∧
    (¬((SignUpPage.handleOTPRequest nowMs sendSucceeds s).2.2 = true ∧
        sendSucceeds = true) →
      (SignUpPage.handleOTPRequest nowMs sendSucceeds s).1 = s) ∧
    (∀ name email dateOfBirth,
      (SignUpPage.onSubmit name email dateOfBirth sendSucceeds
          s).otpRequestCount = s.otpRequestCount ∧
      (SignUpPage.onSubmit name email dateOfBirth sendSucceeds
          s).lastOtpRequest = s.lastOtpRequest) := by
  rw [signup_request_eq]
  refine ⟨request_update_iff nowMs sendSucceeds s,
    fun h => request_unchanged nowMs sendSucceeds s h,
    fun email => ?_,
    request_update_iff nowMs sendSucceeds s,
    fun h => request_unchanged nowMs sendSucceeds s h,
    fun name email dateOfBirth => ?_⟩
  · cases sendSucceeds <;> exact ⟨rfl, rfl⟩
  · cases sendSucceeds <;> exact ⟨rfl, rfl⟩

/-- C10 witness: a resend attempt with no recorded email is rejected and
leaves the state bit-for-bit unchanged. -/
theorem claim_C10_witness :
    ¬((SignInPage.handleOTPRequest 5000 true
        (⟨false, true, "", "", 0, none⟩ : OtpScreenState)).2.2 = true ∧
      true = true) ∧
    (SignInPage.handleOTPRequest 5000 true
        (⟨false, true, "", "", 0, none⟩ : OtpScreenState)).1 =
      ⟨false, true, "", "", 0, none⟩ :=
  ⟨by decide,
    (claim_C10_throttle_update ⟨false, true, "", "", 0, none⟩ 5000
      true).2.1 (by decide)⟩

end Highway
